import Mathlib

/-!
Grayscale-OpenCL: a shallow embedding of `main.cpp` and `check_opencl.cpp`.

Both programs are straight-line sequences of calls into external libraries
(the OpenCL runtime and the stb image codec).  The embedding makes every
external call an observable `Event` carrying the arguments the program passes
and the result the library hands back; the results themselves come from an
environment `Env`, one field per call site, so that a theorem quantified over
`Env` speaks about every possible behaviour of the libraries.

Machine arithmetic: `int` is 32-bit twos complement, `size_t` is 64-bit
unsigned (LP64).  Signed overflow of `width * height` is modelled by the
wrap-around that the hardware multiplication produces.

C++ library behaviour that the control flow depends on is part of the model:
the constructor of a byte `std::vector` throws when the requested size exceeds
`max_size()` or the allocator fails, and since nothing catches, the process is
aborted; streaming a null `char*` into `std::cerr` sets its badbit, after which
nothing more is written.  The kernel text read by `loadKernel` is taken to fit
in memory.
-/

/-! ## Values shared by both programs -/

namespace OpenCL

/-- Status `CL_SUCCESS` of the header `CL/cl.h`. -/
def CL_SUCCESS : Int := 0

/-- Device type `CL_DEVICE_TYPE_GPU` of `CL/cl.h` (bit 2). -/
def CL_DEVICE_TYPE_GPU : Nat := 4

/-- Buffer flag `CL_MEM_WRITE_ONLY` of `CL/cl.h` (bit 1). -/
def CL_MEM_WRITE_ONLY : Nat := 2

/-- Buffer flag `CL_MEM_READ_ONLY` of `CL/cl.h` (bit 2). -/
def CL_MEM_READ_ONLY : Nat := 4

/-- Buffer flag `CL_MEM_COPY_HOST_PTR` of `CL/cl.h` (bit 5). -/
def CL_MEM_COPY_HOST_PTR : Nat := 32

end OpenCL

/-! ## `check_opencl.cpp` -/

namespace CheckOpenCL

open OpenCL

/-- What `clGetPlatformIDs(10, platforms, &platformCount)` hands back: the
returned status and the value stored into `platformCount` (a `cl_uint`). -/
structure Env where
  status : Int
  platformCount : Nat
deriving DecidableEq

/-- Observable behaviour of the demo: the text written to stdout and the value
returned from `main`. -/
structure Result where
  stdout : String
  ret : Int
deriving DecidableEq

/-- The `main` of `check_opencl.cpp`.  `printf` with `%u` writes the decimal
digits of the unsigned count. -/
def main (env : Env) : Result :=
  let err := env.status
  if err ≠ CL_SUCCESS then
    ⟨"Failed to get OpenCL platforms.\n", -1⟩
  else
    ⟨"Found " ++ toString env.platformCount ++ " OpenCL platform(s).\n", 0⟩

end CheckOpenCL

/-! ## `main.cpp` -/

namespace Grayscale

open OpenCL

/-- One operand of a `<<` chain on a C++ output stream. -/
inductive Item where
  | str (s : String)
  /-- A `char*` operand that may be the null pointer (`none`). -/
  | cstr (p : Option String)
  | int (i : Int)
  | endl
deriving DecidableEq

/-- The handles (C++ variables) that `main` acquires and later releases. -/
inductive Resource where
  | input_image
  | context
  | queue
  | inputBuffer
  | outputBuffer
  | program
  | kernel
deriving DecidableEq

/-- Value bound by `clSetKernelArg`: the address of a buffer handle or of an
`int` variable. -/
inductive Arg where
  | mem (r : Resource)
  | int (v : Int)
deriving DecidableEq

/-- Observable actions of `main`, in the order of the source.  Each library
call records the arguments that matter and the result handed back. -/
inductive Event where
  | stbi_load (filename : String) (req_comp : Int) (result : Option (Int × Int))
  | ifstream_open (filename : String) (is_open : Bool)
  | clGetPlatformIDs (num_entries : Nat) (status : Int)
  | clGetDeviceIDs (device_type : Nat) (num_entries : Nat) (status : Int)
  | clCreateContext (status : Int)
  | clCreateCommandQueue (status : Int)
  | clCreateBuffer (dst : Resource) (flags : Nat) (size : Nat) (host_ptr : Option Resource)
      (status : Int)
  | clCreateProgramWithSource (source : String) (status : Int)
  | clBuildProgram (status : Int)
  | clGetProgramBuildInfo (param_value_size : Nat) (status : Int)
  | clCreateKernel (kernel_name : String) (status : Int)
  | clSetKernelArg (arg_index : Nat) (arg_size : Nat) (arg : Arg) (status : Int)
  | clEnqueueNDRangeKernel (work_dim : Nat) (global_work_size : Nat) (status : Int)
  | clEnqueueReadBuffer (src : Resource) (size : Nat) (status : Int)
  | stbi_write_jpg (filename : String) (w h comp : Int) (data : List Nat) (quality : Int)
      (ret : Int)
  | stbi_image_free (r : Resource)
  | clReleaseMemObject (r : Resource) (status : Int)
  | clReleaseKernel (r : Resource) (status : Int)
  | clReleaseProgram (r : Resource) (status : Int)
  | clReleaseCommandQueue (r : Resource) (status : Int)
  | clReleaseContext (r : Resource) (status : Int)
  | cerr (items : List Item)
  | cout (items : List Item)
deriving DecidableEq

/-- How the process ends: `return c` from `main`, a call of `exit(c)`, or
`std::terminate` after an exception that nothing catches (the process is killed
by `SIGABRT`). -/
inductive Exit where
  | returned (code : Int)
  | exited (code : Int)
  | aborted
deriving DecidableEq

/-- Process exit status; an aborted process has none. -/
def Exit.code : Exit → Option Int
  | .returned c => some c
  | .exited c => some c
  | .aborted => none

/-- A complete run: everything the process did, and how it ended. -/
structure Result where
  trace : List Event
  status : Exit
deriving DecidableEq

/-- The results of the external calls, one field per call site of `main.cpp`. -/
structure Env where
  /-- Result of `stbi_load`: `none` is the null pointer, `some (width, height)` a decoded image. -/
  stbi_load : Option (Int × Int)
  /-- Contents of `kernel.cl`; `none` when the stream fails to open. -/
  kernel_file : Option String
  clGetPlatformIDs : Int
  clGetDeviceIDs : Int
  clCreateContext : Int
  clCreateCommandQueue : Int
  clCreateBuffer_input : Int
  clCreateBuffer_output : Int
  clCreateProgramWithSource : Int
  clBuildProgram : Int
  /-- Status of the build-info query that asks for the size of the log. -/
  clGetProgramBuildInfo_size : Int
  /-- Value of `log_size` after that query. -/
  log_size : Nat
  /-- Status of the build-info query that fetches the log. -/
  clGetProgramBuildInfo_data : Int
  /-- The C string found at `build_log.data()` after that query. -/
  build_log : String
  clCreateKernel : Int
  /-- Status of `clSetKernelArg` for each argument index. -/
  clSetKernelArg : Nat → Int
  clEnqueueNDRangeKernel : Int
  clEnqueueReadBuffer : Int
  /-- Byte `i` of the output device buffer. -/
  device_output : Nat → Nat
  /-- Return value of `stbi_write_jpg`: non-zero on success, 0 on failure. -/
  stbi_write_jpg : Int
  /-- Status of the release call for each handle. -/
  release : Resource → Int
  /-- Whether the allocator provides the bytes of `output_image` (source line 48). -/
  alloc_output_image : Bool
  /-- Whether the allocator provides the bytes of `build_log` (source line 92). -/
  alloc_build_log : Bool

/-- Largest value of `int`. -/
def INT_MAX : Int := 2147483647

/-- Reduction of a mathematical integer to `int`, 32-bit twos complement. -/
def toInt32 (x : Int) : Int := (x + 2 ^ 31) % 2 ^ 32 - 2 ^ 31

/-- Conversion of an `int` to `size_t`: the value modulo `2 ^ 64`. -/
def toSizeT (x : Int) : Nat := (x % 2 ^ 64).toNat

/-- Source line `size_t pixel_count = width * height;`: the product is taken
in `int` and only then widened. -/
def pixel_count (width height : Int) : Nat := toSizeT (toInt32 (width * height))

/-- Source line `size_t input_size = pixel_count * 3;`, in `size_t`. -/
def input_size (width height : Int) : Nat := (pixel_count width height * 3) % 2 ^ 64

/-- Source line `size_t output_size = pixel_count;`. -/
def output_size (width height : Int) : Nat := pixel_count width height

/-- Largest size of a byte `std::vector`, its `max_size()`: `PTRDIFF_MAX`. -/
def VECTOR_MAX_SIZE : Nat := 2 ^ 63 - 1

/-- Record an action and go on with the rest of the run. -/
def emit (e : Event) (rest : Result) : Result := ⟨e :: rest.trace, rest.status⟩

/-- The run stops here. -/
def stop (s : Exit) : Result := ⟨[], s⟩

/-- Constructor `std::vector<T> v(n)` of a byte vector.  It throws
`std::length_error` when `n` exceeds `max_size()` and `std::bad_alloc` when the
allocator fails; `main` catches nothing, so the process is aborted. -/
def std_vector (n : Nat) (allocated : Bool) (rest : Result) : Result :=
  if n ≤ VECTOR_MAX_SIZE ∧ allocated = true then rest else stop .aborted

/-- The operands of the one output statement of `checkError` (source line 17). -/
def errorLine (operation : String) (err : Int) : List Item :=
  [.str "Error during operation \x27", .str operation, .str "\x27, error code: ", .int err,
   .endl]

/-- Source function `checkError`: a status other than `CL_SUCCESS` is printed with
the operation name and ends the process with `exit(1)`. -/
def checkError (err : Int) (operation : String) (rest : Result) : Result :=
  if err ≠ CL_SUCCESS then
    emit (.cerr (errorLine operation err)) <|
    stop (.exited 1)
  else rest

/-- Source function `loadKernel`: opens the file and returns its text, or prints
a message and ends the process with `exit(1)`. -/
def loadKernel (env : Env) (filename : String) (rest : String → Result) : Result :=
  emit (.ifstream_open filename env.kernel_file.isSome) <|
  match env.kernel_file with
  | none =>
    emit (.cerr [.str "Failed to load kernel.\n"]) <|
    stop (.exited 1)
  | some text => rest text

/-- The build-failure branch of `main` (source lines 88 to 97).  The vector
`build_log` has `log_size` bytes; the pointer `build_log.data()` of an empty
vector is null. -/
def buildFailure (env : Env) (err : Int) (rest : Result) : Result :=
  if err ≠ CL_SUCCESS then
    emit (.clGetProgramBuildInfo 0 env.clGetProgramBuildInfo_size) <|
    let log_size := env.log_size
    std_vector log_size env.alloc_build_log <|
    emit (.clGetProgramBuildInfo log_size env.clGetProgramBuildInfo_data) <|
    let data := if log_size = 0 then none else some env.build_log
    emit (.cerr [.str "Build log:\n", .cstr data, .endl]) <|
    checkError err "clBuildProgram" rest
  else rest

/-- The cleanup block of `main` (source lines 123 to 132). -/
def cleanup (env : Env) : Result :=
  emit (.stbi_image_free .input_image) <|
  emit (.clReleaseMemObject .inputBuffer (env.release .inputBuffer)) <|
  emit (.clReleaseMemObject .outputBuffer (env.release .outputBuffer)) <|
  emit (.clReleaseKernel .kernel (env.release .kernel)) <|
  emit (.clReleaseProgram .program (env.release .program)) <|
  emit (.clReleaseCommandQueue .queue (env.release .queue)) <|
  emit (.clReleaseContext .context (env.release .context)) <|
  stop (.returned 0)

/-- The part of `main` after the program has been created (source lines 87 to 132). -/
def buildAndRun (env : Env) (width height : Int) : Result :=
  let pixel_count := pixel_count width height
  let output_size := output_size width height
  let err := env.clBuildProgram
  emit (.clBuildProgram err) <|
  buildFailure env err <|
  let err := env.clCreateKernel
  emit (.clCreateKernel "rgb_to_grayscale" err) <|
  checkError err "clCreateKernel" <|
  let err := env.clSetKernelArg 0
  emit (.clSetKernelArg 0 8 (.mem .inputBuffer) (env.clSetKernelArg 0)) <|
  let err := Int.lor err (env.clSetKernelArg 1)
  emit (.clSetKernelArg 1 8 (.mem .outputBuffer) (env.clSetKernelArg 1)) <|
  let err := Int.lor err (env.clSetKernelArg 2)
  emit (.clSetKernelArg 2 4 (.int width) (env.clSetKernelArg 2)) <|
  let err := Int.lor err (env.clSetKernelArg 3)
  emit (.clSetKernelArg 3 4 (.int height) (env.clSetKernelArg 3)) <|
  checkError err "clSetKernelArg" <|
  let global_work_size := pixel_count
  let err := env.clEnqueueNDRangeKernel
  emit (.clEnqueueNDRangeKernel 1 global_work_size err) <|
  checkError err "clEnqueueNDRangeKernel" <|
  let err := env.clEnqueueReadBuffer
  emit (.clEnqueueReadBuffer .outputBuffer output_size err) <|
  checkError err "clEnqueueReadBuffer" <|
  let output_image := (List.range output_size).map env.device_output
  emit (.stbi_write_jpg "output.jpg" width height 1 output_image 100 env.stbi_write_jpg) <|
  emit (.cout [.str "Grayscale image saved as output.jpg\n"]) <|
  cleanup env

/-- The `main` of `main.cpp`. -/
def main (env : Env) : Result :=
  emit (.stbi_load "input.jpg" 3 env.stbi_load) <|
  match env.stbi_load with
  | none =>
    emit (.cerr [.str "Failed to load image.\n"]) <|
    stop (.returned 1)
  | some (width, height) =>
    let input_size := input_size width height
    let output_size := output_size width height
    std_vector output_size env.alloc_output_image <|
    loadKernel env "kernel.cl" fun kernel_code =>
    let err := env.clGetPlatformIDs
    emit (.clGetPlatformIDs 1 err) <|
    checkError err "clGetPlatformIDs" <|
    let err := env.clGetDeviceIDs
    emit (.clGetDeviceIDs CL_DEVICE_TYPE_GPU 1 err) <|
    checkError err "clGetDeviceIDs" <|
    let err := env.clCreateContext
    emit (.clCreateContext err) <|
    checkError err "clCreateContext" <|
    let err := env.clCreateCommandQueue
    emit (.clCreateCommandQueue err) <|
    checkError err "clCreateCommandQueue" <|
    let err := env.clCreateBuffer_input
    emit (.clCreateBuffer .inputBuffer (CL_MEM_READ_ONLY ||| CL_MEM_COPY_HOST_PTR) input_size
      (some .input_image) err) <|
    checkError err "clCreateBuffer(input)" <|
    let err := env.clCreateBuffer_output
    emit (.clCreateBuffer .outputBuffer CL_MEM_WRITE_ONLY output_size none err) <|
    checkError err "clCreateBuffer(output)" <|
    let err := env.clCreateProgramWithSource
    emit (.clCreateProgramWithSource kernel_code err) <|
    checkError err "clCreateProgramWithSource" <|
    buildAndRun env width height

/-! ### Vocabulary of the properties -/

/-- The call that encodes and writes `output.jpg`. -/
def Event.isEncode : Event → Bool
  | .stbi_write_jpg .. => true
  | _ => false

/-- An output statement on `std::cerr`. -/
def Event.isCerr : Event → Bool
  | .cerr _ => true
  | _ => false

/-- The operands of all `std::cerr` statements of a trace, in order. -/
def cerrItems : List Event → List Item
  | [] => []
  | .cerr items :: es => items ++ cerrItems es
  | _ :: es => cerrItems es

/-- A null `char*` operand. -/
def Item.isNull : Item → Bool
  | .cstr none => true
  | _ => false

/-- What reaches stderr: the operands are written in order until a null `char*`
is streamed; that sets the badbit of `std::cerr`, and neither the null operand
nor anything after it is written. -/
def stderrText (t : List Event) : List Item := (cerrItems t).takeWhile fun i => !i.isNull

/-- A failure that the driver tests for: a null decode, a kernel file that
does not open, or a non-success status of a call whose status reaches
`checkError` (the four `clSetKernelArg` statuses reach it or-ed together).
Build-info queries and release calls are not tested. -/
def Event.fatal : Event → Bool
  | .stbi_load _ _ r => r.isNone
  | .ifstream_open _ ok => !ok
  | .clGetPlatformIDs _ s => s != CL_SUCCESS
  | .clGetDeviceIDs _ _ s => s != CL_SUCCESS
  | .clCreateContext s => s != CL_SUCCESS
  | .clCreateCommandQueue s => s != CL_SUCCESS
  | .clCreateBuffer _ _ _ _ s => s != CL_SUCCESS
  | .clCreateProgramWithSource _ s => s != CL_SUCCESS
  | .clBuildProgram s => s != CL_SUCCESS
  | .clCreateKernel _ s => s != CL_SUCCESS
  | .clSetKernelArg _ _ _ s => s != CL_SUCCESS
  | .clEnqueueNDRangeKernel _ _ s => s != CL_SUCCESS
  | .clEnqueueReadBuffer _ _ s => s != CL_SUCCESS
  | _ => false

/-- The calls whose own status is handed to `checkError`, with the operation
label the source passes along and the status the call returned. -/
def Event.checked : Event → Option (String × Int)
  | .clGetPlatformIDs _ s => some ("clGetPlatformIDs", s)
  | .clGetDeviceIDs _ _ s => some ("clGetDeviceIDs", s)
  | .clCreateContext s => some ("clCreateContext", s)
  | .clCreateCommandQueue s => some ("clCreateCommandQueue", s)
  | .clCreateBuffer .inputBuffer _ _ _ s => some ("clCreateBuffer(input)", s)
  | .clCreateBuffer .outputBuffer _ _ _ s => some ("clCreateBuffer(output)", s)
  | .clCreateProgramWithSource _ s => some ("clCreateProgramWithSource", s)
  | .clBuildProgram s => some ("clBuildProgram", s)
  | .clCreateKernel _ s => some ("clCreateKernel", s)
  | .clEnqueueNDRangeKernel _ _ s => some ("clEnqueueNDRangeKernel", s)
  | .clEnqueueReadBuffer _ _ s => some ("clEnqueueReadBuffer", s)
  | _ => none

/-- A library call of the pipeline proper: anything but console output and the
build-info queries that fetch the log. -/
def Event.isPipelineCall : Event → Bool
  | .cerr _ => false
  | .cout _ => false
  | .clGetProgramBuildInfo _ _ => false
  | _ => true

/-- The handle an acquiring call stores, if the event is one. -/
def Event.acquires : Event → Option Resource
  | .stbi_load _ _ _ => some .input_image
  | .clCreateContext _ => some .context
  | .clCreateCommandQueue _ => some .queue
  | .clCreateBuffer dst _ _ _ _ => some dst
  | .clCreateProgramWithSource _ _ => some .program
  | .clCreateKernel _ _ => some .kernel
  | _ => none

/-- The handle a release call is given, if the event is one. -/
def Event.releases : Event → Option Resource
  | .stbi_image_free r => some r
  | .clReleaseMemObject r _ => some r
  | .clReleaseKernel r _ => some r
  | .clReleaseProgram r _ => some r
  | .clReleaseCommandQueue r _ => some r
  | .clReleaseContext r _ => some r
  | _ => none

/-- A release call of the kind that belongs to the handle it is given. -/
def Event.releaseMatches : Event → Bool
  | .stbi_image_free r => r = .input_image
  | .clReleaseMemObject r _ => r = .inputBuffer ∨ r = .outputBuffer
  | .clReleaseKernel r _ => r = .kernel
  | .clReleaseProgram r _ => r = .program
  | .clReleaseCommandQueue r _ => r = .queue
  | .clReleaseContext r _ => r = .context
  | _ => true

/-- Handles in the order in which a trace acquires them. -/
def acquisitions (t : List Event) : List Resource := t.filterMap Event.acquires

/-- Handles in the order in which a trace releases them. -/
def releases (t : List Event) : List Resource := t.filterMap Event.releases

/-- Replays a trace against the set of live handles.  The replay fails (`none`)
when a handle is acquired while live, or released while not live; otherwise it
yields the handles still live at the end. -/
def lifecycle : List Resource → List Event → Option (List Resource)
  | live, [] => some live
  | live, e :: es =>
    match e.acquires, e.releases with
    | some r, _ => if r ∈ live then none else lifecycle (r :: live) es
    | none, some r => if r ∈ live ∧ e.releaseMatches then lifecycle (live.erase r) es else none
    | none, none => lifecycle live es

/-- Modelled from the spec: the decoder `stbi_load` belongs to stb_image.h, which
is not among the sources.  The input is "a fixed-name JPEG image file", and a JPEG
frame header stores width and height in 16 bits each, so a decoded image has
dimensions between 1 and 65535. -/
def jpegDimensions (width height : Int) : Prop :=
  0 < width ∧ width ≤ 65535 ∧ 0 < height ∧ height ≤ 65535

/-- Whether dimensions are those of a JPEG can be computed. -/
instance (width height : Int) : Decidable (jpegDimensions width height) := by
  unfold jpegDimensions
  infer_instance

/-- The decode succeeds and the vector `output_image` can be constructed. -/
def Env.imageFits (env : Env) : Bool :=
  match env.stbi_load with
  | none => false
  | some (width, height) =>
    decide (output_size width height ≤ VECTOR_MAX_SIZE) && env.alloc_output_image

/-- The vector `build_log` of `log_size` bytes can be constructed. -/
def Env.buildLogFits (env : Env) : Prop :=
  env.log_size ≤ VECTOR_MAX_SIZE ∧ env.alloc_build_log = true

/-- Every tested call passes in `env`, and the output buffer can be allocated. -/
def Env.succeeds (env : Env) : Prop :=
  env.imageFits = true ∧ env.kernel_file.isSome ∧
  env.clGetPlatformIDs = CL_SUCCESS ∧ env.clGetDeviceIDs = CL_SUCCESS ∧
  env.clCreateContext = CL_SUCCESS ∧ env.clCreateCommandQueue = CL_SUCCESS ∧
  env.clCreateBuffer_input = CL_SUCCESS ∧ env.clCreateBuffer_output = CL_SUCCESS ∧
  env.clCreateProgramWithSource = CL_SUCCESS ∧ env.clBuildProgram = CL_SUCCESS ∧
  env.clCreateKernel = CL_SUCCESS ∧
  env.clSetKernelArg 0 = CL_SUCCESS ∧ env.clSetKernelArg 1 = CL_SUCCESS ∧
  env.clSetKernelArg 2 = CL_SUCCESS ∧ env.clSetKernelArg 3 = CL_SUCCESS ∧
  env.clEnqueueNDRangeKernel = CL_SUCCESS ∧ env.clEnqueueReadBuffer = CL_SUCCESS

/-- The trace of a run in which every tested call passes. -/
def successTrace (env : Env) (width height : Int) (kernel_code : String) : List Event :=
  [ .stbi_load "input.jpg" 3 (some (width, height)),
    .ifstream_open "kernel.cl" true,
    .clGetPlatformIDs 1 CL_SUCCESS,
    .clGetDeviceIDs CL_DEVICE_TYPE_GPU 1 CL_SUCCESS,
    .clCreateContext CL_SUCCESS,
    .clCreateCommandQueue CL_SUCCESS,
    .clCreateBuffer .inputBuffer (CL_MEM_READ_ONLY ||| CL_MEM_COPY_HOST_PTR)
      (input_size width height) (some .input_image) CL_SUCCESS,
    .clCreateBuffer .outputBuffer CL_MEM_WRITE_ONLY (output_size width height) none CL_SUCCESS,
    .clCreateProgramWithSource kernel_code CL_SUCCESS,
    .clBuildProgram CL_SUCCESS,
    .clCreateKernel "rgb_to_grayscale" CL_SUCCESS,
    .clSetKernelArg 0 8 (.mem .inputBuffer) CL_SUCCESS,
    .clSetKernelArg 1 8 (.mem .outputBuffer) CL_SUCCESS,
    .clSetKernelArg 2 4 (.int width) CL_SUCCESS,
    .clSetKernelArg 3 4 (.int height) CL_SUCCESS,
    .clEnqueueNDRangeKernel 1 (pixel_count width height) CL_SUCCESS,
    .clEnqueueReadBuffer .outputBuffer (output_size width height) CL_SUCCESS,
    .stbi_write_jpg "output.jpg" width height 1
      ((List.range (output_size width height)).map env.device_output) 100 env.stbi_write_jpg,
    .cout [.str "Grayscale image saved as output.jpg\n"],
    .stbi_image_free .input_image,
    .clReleaseMemObject .inputBuffer (env.release .inputBuffer),
    .clReleaseMemObject .outputBuffer (env.release .outputBuffer),
    .clReleaseKernel .kernel (env.release .kernel),
    .clReleaseProgram .program (env.release .program),
    .clReleaseCommandQueue .queue (env.release .queue),
    .clReleaseContext .context (env.release .context) ]

/-- Whether the build-log vector can be constructed can be computed. -/
instance (env : Env) : Decidable env.buildLogFits := by
  unfold Env.buildLogFits
  infer_instance

/-- Whether every tested call passes can be computed. -/
instance (env : Env) : Decidable env.succeeds := by
  unfold Env.succeeds
  infer_instance

/-! ### Concrete environments -/

/-- A 2 by 2 image, a kernel file that opens, and every call succeeding. -/
def Env.ok : Env where
  stbi_load := some (2, 2)
  kernel_file := some "rgb_to_grayscale"
  clGetPlatformIDs := 0
  clGetDeviceIDs := 0
  clCreateContext := 0
  clCreateCommandQueue := 0
  clCreateBuffer_input := 0
  clCreateBuffer_output := 0
  clCreateProgramWithSource := 0
  clBuildProgram := 0
  clGetProgramBuildInfo_size := 0
  log_size := 1
  clGetProgramBuildInfo_data := 0
  build_log := ""
  clCreateKernel := 0
  clSetKernelArg := fun _ => 0
  clEnqueueNDRangeKernel := 0
  clEnqueueReadBuffer := 0
  device_output := fun _ => 128
  stbi_write_jpg := 1
  release := fun _ => 0
  alloc_output_image := true
  alloc_build_log := true

/-- Every call succeeds except the JPEG encoder, which reports failure (returns 0). -/
def Env.encodeFails : Env := { Env.ok with stbi_write_jpg := 0 }

/-- The decode fails: `stbi_load` returns the null pointer. -/
def Env.decodeFails : Env := { Env.ok with stbi_load := none }

/-- Every tested call succeeds; `clReleaseContext` returns -34 (`CL_INVALID_CONTEXT`). -/
def Env.releaseFails : Env :=
  { Env.ok with release := fun r => if r = .context then -34 else 0 }

/-- The build fails with -11 (`CL_BUILD_PROGRAM_FAILURE`) and the query that fetches
the log fails with -30 (`CL_INVALID_VALUE`). -/
def Env.buildInfoFails : Env :=
  { Env.ok with clBuildProgram := -11, clGetProgramBuildInfo_data := -30 }

/-- The first two argument bindings fail, with -38 (`CL_INVALID_MEM_OBJECT`) and
-49 (`CL_INVALID_ARG_INDEX`). -/
def Env.argsFail : Env :=
  { Env.ok with clSetKernelArg := fun i => if i = 0 then -38 else if i = 1 then -49 else 0 }

/-- The device query fails with -1 (`CL_DEVICE_NOT_FOUND`). -/
def Env.noDevice : Env := { Env.ok with clGetDeviceIDs := -1 }

/-- A decoded image of 640 by 480 pixels; every call succeeds. -/
def Env.vga : Env := { Env.ok with stbi_load := some (640, 480) }

/-- A decoded image of 65535 by 65535 pixels, the largest a JPEG can describe. -/
def Env.largeImage : Env := { Env.ok with stbi_load := some (65535, 65535) }

/-- The build fails with -11, the query for the size of the log fails with -30
(`CL_INVALID_VALUE`) and `log_size` holds 2^63. -/
def Env.hugeLog : Env :=
  { Env.ok with clBuildProgram := -11, clGetProgramBuildInfo_size := -30,
                log_size := 9223372036854775808 }

/-- The build fails with -11 and the runtime reports a log of 0 bytes. -/
def Env.nullLog : Env := { Env.ok with clBuildProgram := -11, log_size := 0 }

/-- The build fails with -11 (`CL_BUILD_PROGRAM_FAILURE`) and the runtime hands back
an empty log (a lone terminator, `log_size = 1`). -/
def Env.emptyLog : Env := { Env.ok with clBuildProgram := -11, log_size := 1, build_log := "" }

/-- The build fails with -11 and the runtime hands back a one-line log. -/
def Env.syntaxError : Env :=
  { Env.ok with clBuildProgram := -11, log_size := 24, build_log := "error: expected \x27;\x27\n" }

end Grayscale

/-! ## Properties of `check_opencl.cpp` -/

namespace CheckOpenCL

open OpenCL

/-- Claim C10: for every N ≤ 10, when the platform query succeeds and reports N
platforms, the demo prints the line "Found N OpenCL platform(s)." and returns 0. -/
theorem main_reports_count (N : Nat) (_hN : N ≤ 10) (env : Env)
    (hstatus : env.status = CL_SUCCESS) (hcount : env.platformCount = N) :
    main env = ⟨"Found " ++ toString N ++ " OpenCL platform(s).\n", 0⟩ := by
  simp [main, hstatus, hcount]

/-- Witness of C10 at N = 3: the printed line is "Found 3 OpenCL platform(s).". -/
theorem main_reports_count_witness :
    (3 : Nat) ≤ 10 ∧ main ⟨0, 3⟩ = ⟨"Found 3 OpenCL platform(s).\n", 0⟩ :=
  ⟨by decide, main_reports_count 3 (by decide) ⟨0, 3⟩ rfl rfl⟩

/-- Claim C9, refuted as stated: with zero platforms reported through a successful
query the demo returns 0, not -1; with zero platforms reported through the
status -1001 it prints no count at all. -/
theorem zero_platforms_counterexample :
    main ⟨0, 0⟩ = ⟨"Found 0 OpenCL platform(s).\n", 0⟩ ∧ (main ⟨0, 0⟩).ret ≠ -1 ∧
    main ⟨-1001, 0⟩ = ⟨"Failed to get OpenCL platforms.\n", -1⟩ := by
  refine ⟨?_, ?_, ?_⟩ <;> decide

/-- Claim C9, amended: a non-success status of the platform query makes the demo
print "Failed to get OpenCL platforms." (no count) and return -1; a successful
query that reports 0 platforms makes it print "Found 0 OpenCL platform(s)." and
return 0. -/
theorem zero_platforms_behaviour (env : Env) :
    (env.status ≠ CL_SUCCESS → main env = ⟨"Failed to get OpenCL platforms.\n", -1⟩) ∧
    (env.status = CL_SUCCESS → env.platformCount = 0 →
      main env = ⟨"Found 0 OpenCL platform(s).\n", 0⟩) := by
  constructor
  · intro h
    simp [main, h]
  · intro h h0
    simp [main, h, h0]
    rfl

/-- Witness of the amended C9 at the status -1001 and at a successful query with count 0. -/
theorem zero_platforms_behaviour_witness :
    main ⟨-1001, 7⟩ = ⟨"Failed to get OpenCL platforms.\n", -1⟩ ∧
    main ⟨0, 0⟩ = ⟨"Found 0 OpenCL platform(s).\n", 0⟩ :=
  ⟨(zero_platforms_behaviour ⟨-1001, 7⟩).1 (by decide),
   (zero_platforms_behaviour ⟨0, 0⟩).2 rfl rfl⟩

end CheckOpenCL

/-! ## Properties of `main.cpp` -/

namespace Grayscale

open OpenCL

/-! ### Auxiliary facts -/

theorem nat_lor_eq_zero {m n : Nat} (h : m ||| n = 0) : m = 0 ∧ n = 0 := by
  have key : ∀ i, m.testBit i = false ∧ n.testBit i = false := by
    intro i
    have hi := congrArg (fun x => Nat.testBit x i) h
    simpa [Nat.testBit_or] using hi
  exact ⟨Nat.zero_of_testBit_eq_false fun i => (key i).1,
         Nat.zero_of_testBit_eq_false fun i => (key i).2⟩

/-- The bitwise or of two `int` values is zero only when both are zero. -/
theorem lor_eq_zero_iff (a b : Int) : Int.lor a b = 0 ↔ a = 0 ∧ b = 0 := by
  constructor
  · intro h
    cases a with
    | ofNat m =>
      cases b with
      | ofNat n =>
        have h2 : m ||| n = 0 := by
          simpa [Int.lor] using h
        obtain ⟨hm, hn⟩ := nat_lor_eq_zero h2
        simp [hm, hn]
      | negSucc n => simp [Int.lor] at h
    | negSucc m =>
      cases b with
      | ofNat n => simp [Int.lor] at h
      | negSucc n => simp [Int.lor] at h
  · rintro ⟨rfl, rfl⟩
    rfl

/-- Or-ing with a zero status changes nothing. -/
theorem lor_zero_right (x : Int) : Int.lor x 0 = x := by
  cases x with
  | ofNat m =>
    show ((m ||| 0 : Nat) : Int) = m
    simp
  | negSucc m =>
    show Int.negSucc (Nat.ldiff m 0) = Int.negSucc m
    simp [Nat.ldiff]

@[simp] theorem emit_trace (e : Event) (r : Result) : (emit e r).trace = e :: r.trace := rfl

@[simp] theorem emit_status (e : Event) (r : Result) : (emit e r).status = r.status := rfl

@[simp] theorem stop_trace (s : Exit) : (stop s).trace = [] := rfl

@[simp] theorem stop_status (s : Exit) : (stop s).status = s := rfl

theorem checkError_eq {err : Int} (h : err = CL_SUCCESS) (operation : String) (r : Result) :
    checkError err operation r = r := by
  simp [checkError, h]

theorem checkError_ne {err : Int} (h : err ≠ CL_SUCCESS) (operation : String) (r : Result) :
    checkError err operation r = emit (.cerr (errorLine operation err)) (stop (.exited 1)) := by
  simp [checkError, h]

theorem std_vector_eq {n : Nat} {allocated : Bool}
    (h : n ≤ VECTOR_MAX_SIZE ∧ allocated = true) (r : Result) :
    std_vector n allocated r = r := by
  simp [std_vector, h]

theorem std_vector_ne {n : Nat} {allocated : Bool}
    (h : ¬(n ≤ VECTOR_MAX_SIZE ∧ allocated = true)) (r : Result) :
    std_vector n allocated r = stop .aborted := by
  unfold std_vector
  rw [if_neg h]

theorem buildFailure_eq (env : Env) {err : Int} (h : err = CL_SUCCESS) (r : Result) :
    buildFailure env err r = r := by
  simp [buildFailure, h]

/-- A failed build whose log vector cannot be constructed: the process aborts
after the first build-info query. -/
theorem buildFailure_abort (env : Env) {err : Int} (h : err ≠ CL_SUCCESS)
    (hf : ¬env.buildLogFits) (r : Result) :
    buildFailure env err r =
      emit (.clGetProgramBuildInfo 0 env.clGetProgramBuildInfo_size) (stop .aborted) := by
  unfold buildFailure
  rw [if_pos h]
  simp only []
  rw [std_vector_ne hf]

/-- A failed build whose log vector is constructed: both queries, the two output
statements, and `exit(1)`. -/
theorem buildFailure_print (env : Env) {err : Int} (h : err ≠ CL_SUCCESS)
    (hf : env.buildLogFits) (r : Result) :
    buildFailure env err r =
      emit (.clGetProgramBuildInfo 0 env.clGetProgramBuildInfo_size)
        (emit (.clGetProgramBuildInfo env.log_size env.clGetProgramBuildInfo_data)
          (emit (.cerr [.str "Build log:\n",
              .cstr (if env.log_size = 0 then none else some env.build_log), .endl])
            (emit (.cerr (errorLine "clBuildProgram" err)) (stop (.exited 1))))) := by
  unfold buildFailure
  rw [if_pos h]
  simp only []
  rw [std_vector_eq hf, checkError_ne h]

/-- The four or-ed `clSetKernelArg` statuses are zero only when each one is. -/
theorem setArg_or_eq (a b c d : Int)
    (h : Int.lor (Int.lor (Int.lor a b) c) d = CL_SUCCESS) :
    a = CL_SUCCESS ∧ b = CL_SUCCESS ∧ c = CL_SUCCESS ∧ d = CL_SUCCESS := by
  unfold CL_SUCCESS at *
  obtain ⟨h3, hd⟩ := (lor_eq_zero_iff _ _).1 h
  obtain ⟨h2, hc⟩ := (lor_eq_zero_iff _ _).1 h3
  obtain ⟨ha, hb⟩ := (lor_eq_zero_iff _ _).1 h2
  exact ⟨ha, hb, hc, hd⟩

/-- When every tested call passes and the output buffer is allocated, the run is
the complete pipeline and `main` returns 0. -/
theorem main_of_succeeds (env : Env) (W H : Int) (code : String)
    (hl : env.stbi_load = some (W, H)) (hk : env.kernel_file = some code)
    (hs : env.succeeds) :
    main env = ⟨successTrace env W H code, .returned 0⟩ := by
  obtain ⟨hfit, -, h1, h2, h3, h4, h5, h6, h7, h8, h9, a0, a1, a2, a3, h10, h11⟩ := hs
  have hv : output_size W H ≤ VECTOR_MAX_SIZE ∧ env.alloc_output_image = true := by
    simpa [Env.imageFits, hl] using hfit
  have hor : Int.lor (Int.lor (Int.lor (env.clSetKernelArg 0) (env.clSetKernelArg 1))
      (env.clSetKernelArg 2)) (env.clSetKernelArg 3) = CL_SUCCESS := by
    rw [a0, a1, a2, a3]; rfl
  simp only [main, loadKernel, buildAndRun, cleanup, hl, hk]
  rw [std_vector_eq hv, checkError_eq h1, checkError_eq h2, checkError_eq h3, checkError_eq h4,
    checkError_eq h5, checkError_eq h6, checkError_eq h7, buildFailure_eq env h8,
    checkError_eq h9, checkError_eq hor, checkError_eq h10, checkError_eq h11]
  simp [emit, stop, successTrace, h1, h2, h3, h4, h5, h6, h7, h8, h9, a0, a1, a2, a3, h10, h11]

set_option maxHeartbeats 2000000 in
/-- Either every tested call passes and the output buffer is allocated, or the
run does not return 0 and never reaches the encode call: it ends with status 1,
or it is aborted by a vector constructor that throws. -/
theorem main_cases (env : Env) :
    env.succeeds ∨
    ((main env).status ≠ .returned 0 ∧
      (∀ e ∈ (main env).trace, e.isEncode = false) ∧
      ((main env).status = .aborted ∨ (main env).status.code = some 1) ∧
      ((∃ e ∈ (main env).trace, e.fatal = true) → env.buildLogFits →
        (main env).status.code = some 1)) := by
  simp only [main, loadKernel, buildAndRun, cleanup]
  rcases hl : env.stbi_load with _ | ⟨W, H⟩
  · right; simp [Exit.code, Event.isEncode, Event.fatal, *]
  simp only []
  by_cases hv : output_size W H ≤ VECTOR_MAX_SIZE ∧ env.alloc_output_image = true
  case neg => rw [std_vector_ne hv]; right; simp [Exit.code, Event.isEncode, Event.fatal, *]
  rw [std_vector_eq hv]
  rcases hk : env.kernel_file with _ | code
  · right; simp [Exit.code, Event.isEncode, Event.fatal, *]
  simp only []
  by_cases h1 : env.clGetPlatformIDs = CL_SUCCESS
  case neg => rw [checkError_ne h1]; right; simp [Exit.code, Event.isEncode, Event.fatal, *]
  rw [checkError_eq h1]
  by_cases h2 : env.clGetDeviceIDs = CL_SUCCESS
  case neg => rw [checkError_ne h2]; right; simp [Exit.code, Event.isEncode, Event.fatal, *]
  rw [checkError_eq h2]
  by_cases h3 : env.clCreateContext = CL_SUCCESS
  case neg => rw [checkError_ne h3]; right; simp [Exit.code, Event.isEncode, Event.fatal, *]
  rw [checkError_eq h3]
  by_cases h4 : env.clCreateCommandQueue = CL_SUCCESS
  case neg => rw [checkError_ne h4]; right; simp [Exit.code, Event.isEncode, Event.fatal, *]
  rw [checkError_eq h4]
  by_cases h5 : env.clCreateBuffer_input = CL_SUCCESS
  case neg => rw [checkError_ne h5]; right; simp [Exit.code, Event.isEncode, Event.fatal, *]
  rw [checkError_eq h5]
  by_cases h6 : env.clCreateBuffer_output = CL_SUCCESS
  case neg => rw [checkError_ne h6]; right; simp [Exit.code, Event.isEncode, Event.fatal, *]
  rw [checkError_eq h6]
  by_cases h7 : env.clCreateProgramWithSource = CL_SUCCESS
  case neg => rw [checkError_ne h7]; right; simp [Exit.code, Event.isEncode, Event.fatal, *]
  rw [checkError_eq h7]
  by_cases h8 : env.clBuildProgram = CL_SUCCESS
  case neg =>
    by_cases hf : env.buildLogFits
    · rw [buildFailure_print env h8 hf]
      right; simp [Exit.code, Event.isEncode, Event.fatal, *]
    · rw [buildFailure_abort env h8 hf]; right; simp [Exit.code, Event.isEncode, Event.fatal, *]
  rw [buildFailure_eq env h8]
  by_cases h9 : env.clCreateKernel = CL_SUCCESS
  case neg => rw [checkError_ne h9]; right; simp [Exit.code, Event.isEncode, Event.fatal, *]
  rw [checkError_eq h9]
  by_cases hor : Int.lor (Int.lor (Int.lor (env.clSetKernelArg 0) (env.clSetKernelArg 1))
      (env.clSetKernelArg 2)) (env.clSetKernelArg 3) = CL_SUCCESS
  case neg => rw [checkError_ne hor]; right; simp [Exit.code, Event.isEncode, Event.fatal, *]
  rw [checkError_eq hor]
  obtain ⟨a0, a1, a2, a3⟩ := setArg_or_eq _ _ _ _ hor
  by_cases h10 : env.clEnqueueNDRangeKernel = CL_SUCCESS
  case neg => rw [checkError_ne h10]; right; simp [Exit.code, Event.isEncode, Event.fatal, *]
  rw [checkError_eq h10]
  by_cases h11 : env.clEnqueueReadBuffer = CL_SUCCESS
  case neg => rw [checkError_ne h11]; right; simp [Exit.code, Event.isEncode, Event.fatal, *]
  rw [checkError_eq h11]
  left
  simp [Env.succeeds, Env.imageFits, *]

theorem succeeds_of_returned_zero (env : Env) (h : (main env).status = .returned 0) :
    env.succeeds := by
  rcases main_cases env with hs | hf
  · exact hs
  · exact absurd h hf.1

/-- A run in which every tested call passes is the complete pipeline. -/
theorem main_of_succeeds_exists (env : Env) (hs : env.succeeds) :
    ∃ W H code, env.stbi_load = some (W, H) ∧ env.kernel_file = some code ∧
      output_size W H ≤ VECTOR_MAX_SIZE ∧
      main env = ⟨successTrace env W H code, .returned 0⟩ := by
  have hl := hs.1
  have hk := hs.2.1
  rcases hl1 : env.stbi_load with _ | ⟨W, H⟩
  · simp [Env.imageFits, hl1] at hl
  rcases hk1 : env.kernel_file with _ | code
  · simp [hk1] at hk
  have hv : output_size W H ≤ VECTOR_MAX_SIZE ∧ env.alloc_output_image = true := by
    simpa [Env.imageFits, hl1] using hl
  exact ⟨W, H, code, rfl, rfl, hv.1, main_of_succeeds env W H code hl1 hk1 hs⟩

/-- A run that returns 0 is the complete pipeline. -/
theorem main_of_returned_zero (env : Env) (h : (main env).status = .returned 0) :
    ∃ W H code, env.stbi_load = some (W, H) ∧ env.kernel_file = some code ∧
      output_size W H ≤ VECTOR_MAX_SIZE ∧
      main env = ⟨successTrace env W H code, .returned 0⟩ :=
  main_of_succeeds_exists env (succeeds_of_returned_zero env h)

/-- Without overflow, `pixel_count` is the mathematical product. -/
theorem pixel_count_eq (W H : Int) (h0 : 0 ≤ W * H) (hfit : W * H ≤ INT_MAX) :
    pixel_count W H = (W * H).toNat := by
  unfold pixel_count toSizeT toInt32
  unfold INT_MAX at hfit
  generalize W * H = p at *
  have e1 : (p + 2 ^ 31) % 2 ^ 32 = p + 2 ^ 31 := by
    apply Int.emod_eq_of_lt <;> omega
  rw [e1]
  rw [Int.add_sub_cancel]
  have e2 : p % 2 ^ 64 = p := by
    apply Int.emod_eq_of_lt <;> omega
  rw [e2]

/-- For dimensions of a JPEG, a product that overflows `int` wraps to a negative
value, whose conversion to `size_t` exceeds the largest vector; so when the vector
`output_image` can be constructed the product did not overflow. -/
theorem product_fits_of_vector (W H : Int) (hdim : jpegDimensions W H)
    (hv : output_size W H ≤ VECTOR_MAX_SIZE) : 0 ≤ W * H ∧ W * H ≤ INT_MAX := by
  obtain ⟨hW, hW2, hH, hH2⟩ := hdim
  have h0 : 0 < W * H := mul_pos hW hH
  have h1 : W * H ≤ 65535 * 65535 :=
    mul_le_mul hW2 hH2 (le_of_lt hH) (by omega)
  unfold output_size pixel_count toSizeT toInt32 VECTOR_MAX_SIZE at hv
  unfold INT_MAX
  generalize W * H = p at *
  omega

/-! ### Failure paths -/

/-- Claim C1, evaluated where the code departs from it: when every call succeeds
but the JPEG encoder reports failure (returns 0, no file written), `main` still
prints the success line, writes nothing to stderr and returns 0. -/
theorem encode_failure_returns_zero :
    (main Env.encodeFails).status = .returned 0 ∧
    Event.stbi_write_jpg "output.jpg" 2 2 1 [128, 128, 128, 128] 100 0 ∈
      (main Env.encodeFails).trace ∧
    Event.cout [.str "Grayscale image saved as output.jpg\n"] ∈ (main Env.encodeFails).trace ∧
    ∀ e ∈ (main Env.encodeFails).trace, e.isCerr = false := by
  decide

/-- A decode of 65535 by 65535: the `int` product wraps to a negative value, the
constructor of `output_image` throws and the process is aborted at source line 48,
before the kernel file is opened. -/
theorem overflow_aborts :
    (main Env.largeImage).status = .aborted ∧
    (main Env.largeImage).trace = [.stbi_load "input.jpg" 3 (some (65535, 65535))] := by
  decide

/-- A failed build with a log of 0 bytes: the null `build_log.data()` breaks
`std::cerr`, only the header reaches stderr, and the process ends with `exit(1)`. -/
theorem null_log_loses_error_line :
    (main Env.nullLog).status = .exited 1 ∧
    stderrText (main Env.nullLog).trace = [.str "Build log:\n"] := by
  decide

/-! ### The successful run -/

/-- Claim C7, refuted as stated: in the successful run the handles are released in
the order image, input buffer, output buffer, kernel, program, queue, context,
which is not the reverse of the order of acquisition. -/
theorem release_order_counterexample :
    (main Env.ok).status = .returned 0 ∧
    acquisitions (main Env.ok).trace =
      [.input_image, .context, .queue, .inputBuffer, .outputBuffer, .program, .kernel] ∧
    releases (main Env.ok).trace =
      [.input_image, .inputBuffer, .outputBuffer, .kernel, .program, .queue, .context] ∧
    releases (main Env.ok).trace ≠ (acquisitions (main Env.ok).trace).reverse := by
  decide

/-- Claim C7, amended: when every tested call passes, the handles are acquired in
the order image, context, queue, input buffer, output buffer, program, kernel and
released in the fixed order image, input buffer, output buffer, kernel, program,
queue, context; every release comes after every acquisition, and `main` returns 0. -/
theorem release_order (env : Env) (hs : env.succeeds) :
    acquisitions (main env).trace =
      [.input_image, .context, .queue, .inputBuffer, .outputBuffer, .program, .kernel] ∧
    releases (main env).trace =
      [.input_image, .inputBuffer, .outputBuffer, .kernel, .program, .queue, .context] ∧
    (∃ pre post, (main env).trace = pre ++ post ∧ releases pre = [] ∧ acquisitions post = []) ∧
    (main env).status = .returned 0 := by
  obtain ⟨W, H, code, -, -, -, hm⟩ := main_of_succeeds_exists env hs
  rw [hm]
  refine ⟨?_, ?_, ⟨(successTrace env W H code).take 19, (successTrace env W H code).drop 19,
    (List.take_append_drop _ _).symm, ?_, ?_⟩, rfl⟩ <;>
  simp [successTrace, acquisitions, releases, Event.acquires, Event.releases]

/-- Witness of the amended C7: the 2 by 2 image with every call succeeding. -/
theorem release_order_witness :
    Env.ok.succeeds ∧
    releases (main Env.ok).trace =
      [.input_image, .inputBuffer, .outputBuffer, .kernel, .program, .queue, .context] :=
  ⟨by decide, (release_order Env.ok (by decide)).2.1⟩

/-- Claim C8: in every run that returns 0, each of the context, the command queue,
the two buffers, the program and the kernel (and the decoded image too) is
acquired exactly once and released exactly once, by the release call of its own
kind; no handle is released twice or before it is acquired, and none stays live. -/
theorem acquire_release_balance (env : Env) (hok : (main env).status = .returned 0) :
    (∀ r : Resource, (acquisitions (main env).trace).count r = 1 ∧
      (releases (main env).trace).count r = 1) ∧
    (∀ e ∈ (main env).trace, e.releaseMatches = true) ∧
    lifecycle [] (main env).trace = some [] := by
  obtain ⟨W, H, code, -, -, -, hm⟩ := main_of_returned_zero env hok
  rw [hm]
  refine ⟨?_, ?_, ?_⟩
  · intro r
    cases r <;>
    simp [successTrace, acquisitions, releases, Event.acquires, Event.releases]
  · simp [successTrace, Event.releaseMatches]
  · simp [successTrace, lifecycle, Event.acquires, Event.releases, Event.releaseMatches]

/-- Witness of C8: the 2 by 2 image with every call succeeding. -/
theorem acquire_release_balance_witness :
    (main Env.ok).status = .returned 0 ∧ lifecycle [] (main Env.ok).trace = some [] :=
  ⟨by decide, (acquire_release_balance Env.ok (by decide)).2.2⟩

/-! ### Buffer sizes -/

set_option maxHeartbeats 2000000 in
/-- Every `clCreateBuffer` call of a run comes after the vector `output_image` has
been constructed and is one of the two calls of the source, with the size computed
from the decoded dimensions. -/
theorem createBuffer_events (env : Env) (W H : Int) (hdec : env.stbi_load = some (W, H)) :
    ∀ dst flags size hp st, Event.clCreateBuffer dst flags size hp st ∈ (main env).trace →
      output_size W H ≤ VECTOR_MAX_SIZE ∧
      ((dst = .inputBuffer ∧ size = input_size W H) ∨
       (dst = .outputBuffer ∧ size = output_size W H)) := by
  simp only [main, loadKernel, buildAndRun, cleanup, hdec]
  by_cases hv : output_size W H ≤ VECTOR_MAX_SIZE ∧ env.alloc_output_image = true
  case neg => rw [std_vector_ne hv]; simp
  rw [std_vector_eq hv]
  rcases hk : env.kernel_file with _ | code
  · (simp [hv.1]; try tauto)
  simp only []
  by_cases h1 : env.clGetPlatformIDs = CL_SUCCESS
  case neg => rw [checkError_ne h1]; (simp [hv.1]; try tauto)
  rw [checkError_eq h1]
  by_cases h2 : env.clGetDeviceIDs = CL_SUCCESS
  case neg => rw [checkError_ne h2]; (simp [hv.1]; try tauto)
  rw [checkError_eq h2]
  by_cases h3 : env.clCreateContext = CL_SUCCESS
  case neg => rw [checkError_ne h3]; (simp [hv.1]; try tauto)
  rw [checkError_eq h3]
  by_cases h4 : env.clCreateCommandQueue = CL_SUCCESS
  case neg => rw [checkError_ne h4]; (simp [hv.1]; try tauto)
  rw [checkError_eq h4]
  by_cases h5 : env.clCreateBuffer_input = CL_SUCCESS
  case neg => rw [checkError_ne h5]; (simp [hv.1]; try tauto)
  rw [checkError_eq h5]
  by_cases h6 : env.clCreateBuffer_output = CL_SUCCESS
  case neg => rw [checkError_ne h6]; (simp [hv.1]; try tauto)
  rw [checkError_eq h6]
  by_cases h7 : env.clCreateProgramWithSource = CL_SUCCESS
  case neg => rw [checkError_ne h7]; (simp [hv.1]; try tauto)
  rw [checkError_eq h7]
  by_cases h8 : env.clBuildProgram = CL_SUCCESS
  case neg =>
    by_cases hf : env.buildLogFits
    · rw [buildFailure_print env h8 hf]
      (simp [hv.1]; try tauto)
    · rw [buildFailure_abort env h8 hf]; (simp [hv.1]; try tauto)
  rw [buildFailure_eq env h8]
  by_cases h9 : env.clCreateKernel = CL_SUCCESS
  case neg => rw [checkError_ne h9]; (simp [hv.1]; try tauto)
  rw [checkError_eq h9]
  by_cases hor : Int.lor (Int.lor (Int.lor (env.clSetKernelArg 0) (env.clSetKernelArg 1))
      (env.clSetKernelArg 2)) (env.clSetKernelArg 3) = CL_SUCCESS
  case neg => rw [checkError_ne hor]; (simp [hv.1]; try tauto)
  rw [checkError_eq hor]
  obtain ⟨a0, a1, a2, a3⟩ := setArg_or_eq _ _ _ _ hor
  by_cases h10 : env.clEnqueueNDRangeKernel = CL_SUCCESS
  case neg => rw [checkError_ne h10]; (simp [hv.1]; try tauto)
  rw [checkError_eq h10]
  by_cases h11 : env.clEnqueueReadBuffer = CL_SUCCESS
  case neg => rw [checkError_ne h11]; (simp [hv.1]; try tauto)
  rw [checkError_eq h11]
  (simp [hv.1]; try tauto)

set_option maxHeartbeats 4000000 in
/-- A call whose own status is handed to `checkError` and is not `CL_SUCCESS` is the
last pipeline call of the run.  The run then ends with `exit(1)` and the error line
with the label and status of that call is the last thing written to stderr; for
`clBuildProgram` the first holds when the vector `build_log` can be constructed and
the second when in addition `log_size` is not 0. -/
theorem checked_failure_walk (env : Env) :
    ∀ e ∈ (main env).trace, ∀ name s, e.checked = some (name, s) → s ≠ CL_SUCCESS →
      ((main env).trace.filter Event.isPipelineCall).getLast? = some e ∧
      ((e = .clBuildProgram s → env.buildLogFits) → (main env).status = .exited 1) ∧
      ((e = .clBuildProgram s → env.buildLogFits ∧ 0 < env.log_size) →
        stderrText (main env).trace = errorLine name s ∨
        stderrText (main env).trace =
          [.str "Build log:\n", .cstr (some env.build_log), .endl] ++ errorLine name s) := by
  simp only [main, loadKernel, buildAndRun, cleanup]
  rcases hl : env.stbi_load with _ | ⟨W, H⟩
  · simp [Event.checked, Event.isPipelineCall, List.filter, stderrText, cerrItems, Item.isNull, errorLine, List.takeWhile, *]
  simp only []
  by_cases hv : output_size W H ≤ VECTOR_MAX_SIZE ∧ env.alloc_output_image = true
  case neg => rw [std_vector_ne hv]; simp [Event.checked, Event.isPipelineCall, List.filter, stderrText, cerrItems, Item.isNull, errorLine, List.takeWhile, *]
  rw [std_vector_eq hv]
  rcases hk : env.kernel_file with _ | code
  · simp [Event.checked, Event.isPipelineCall, List.filter, stderrText, cerrItems, Item.isNull, errorLine, List.takeWhile, *]
  simp only []
  by_cases h1 : env.clGetPlatformIDs = CL_SUCCESS
  case neg => rw [checkError_ne h1]; simp [Event.checked, Event.isPipelineCall, List.filter, stderrText, cerrItems, Item.isNull, errorLine, List.takeWhile, *]
  rw [checkError_eq h1]
  by_cases h2 : env.clGetDeviceIDs = CL_SUCCESS
  case neg => rw [checkError_ne h2]; simp [Event.checked, Event.isPipelineCall, List.filter, stderrText, cerrItems, Item.isNull, errorLine, List.takeWhile, *]
  rw [checkError_eq h2]
  by_cases h3 : env.clCreateContext = CL_SUCCESS
  case neg => rw [checkError_ne h3]; simp [Event.checked, Event.isPipelineCall, List.filter, stderrText, cerrItems, Item.isNull, errorLine, List.takeWhile, *]
  rw [checkError_eq h3]
  by_cases h4 : env.clCreateCommandQueue = CL_SUCCESS
  case neg => rw [checkError_ne h4]; simp [Event.checked, Event.isPipelineCall, List.filter, stderrText, cerrItems, Item.isNull, errorLine, List.takeWhile, *]
  rw [checkError_eq h4]
  by_cases h5 : env.clCreateBuffer_input = CL_SUCCESS
  case neg => rw [checkError_ne h5]; simp [Event.checked, Event.isPipelineCall, List.filter, stderrText, cerrItems, Item.isNull, errorLine, List.takeWhile, *]
  rw [checkError_eq h5]
  by_cases h6 : env.clCreateBuffer_output = CL_SUCCESS
  case neg => rw [checkError_ne h6]; simp [Event.checked, Event.isPipelineCall, List.filter, stderrText, cerrItems, Item.isNull, errorLine, List.takeWhile, *]
  rw [checkError_eq h6]
  by_cases h7 : env.clCreateProgramWithSource = CL_SUCCESS
  case neg => rw [checkError_ne h7]; simp [Event.checked, Event.isPipelineCall, List.filter, stderrText, cerrItems, Item.isNull, errorLine, List.takeWhile, *]
  rw [checkError_eq h7]
  by_cases h8 : env.clBuildProgram = CL_SUCCESS
  case neg =>
    by_cases hf : env.buildLogFits
    · rw [buildFailure_print env h8 hf]
      by_cases h0 : env.log_size = 0 <;> simp [Event.checked, Event.isPipelineCall, List.filter, stderrText, cerrItems, Item.isNull, errorLine, List.takeWhile, *]
    · rw [buildFailure_abort env h8 hf]; simp [Event.checked, Event.isPipelineCall, List.filter, stderrText, cerrItems, Item.isNull, errorLine, List.takeWhile, *]
  rw [buildFailure_eq env h8]
  by_cases h9 : env.clCreateKernel = CL_SUCCESS
  case neg => rw [checkError_ne h9]; simp [Event.checked, Event.isPipelineCall, List.filter, stderrText, cerrItems, Item.isNull, errorLine, List.takeWhile, *]
  rw [checkError_eq h9]
  by_cases hor : Int.lor (Int.lor (Int.lor (env.clSetKernelArg 0) (env.clSetKernelArg 1))
      (env.clSetKernelArg 2)) (env.clSetKernelArg 3) = CL_SUCCESS
  case neg => rw [checkError_ne hor]; simp [Event.checked, Event.isPipelineCall, List.filter, stderrText, cerrItems, Item.isNull, errorLine, List.takeWhile, *]
  rw [checkError_eq hor]
  obtain ⟨a0, a1, a2, a3⟩ := setArg_or_eq _ _ _ _ hor
  by_cases h10 : env.clEnqueueNDRangeKernel = CL_SUCCESS
  case neg => rw [checkError_ne h10]; simp [Event.checked, Event.isPipelineCall, List.filter, stderrText, cerrItems, Item.isNull, errorLine, List.takeWhile, *]
  rw [checkError_eq h10]
  by_cases h11 : env.clEnqueueReadBuffer = CL_SUCCESS
  case neg => rw [checkError_ne h11]; simp [Event.checked, Event.isPipelineCall, List.filter, stderrText, cerrItems, Item.isNull, errorLine, List.takeWhile, *]
  rw [checkError_eq h11]
  simp [Event.checked, Event.isPipelineCall, List.filter, stderrText, cerrItems, Item.isNull, errorLine, List.takeWhile, *]

set_option maxHeartbeats 4000000 in
/-- A non-success status of any `clSetKernelArg` call ends the run with `exit(1)`
after the fourth binding, with the or of the four statuses in the error line. -/
theorem setArg_failure_walk (env : Env) :
    ∀ i sz a s, Event.clSetKernelArg i sz a s ∈ (main env).trace → s ≠ CL_SUCCESS →
      (main env).status = .exited 1 ∧
      (main env).trace.getLast? = some (.cerr (errorLine "clSetKernelArg"
        (Int.lor (Int.lor (Int.lor (env.clSetKernelArg 0) (env.clSetKernelArg 1))
          (env.clSetKernelArg 2)) (env.clSetKernelArg 3)))) ∧
      stderrText (main env).trace = errorLine "clSetKernelArg"
        (Int.lor (Int.lor (Int.lor (env.clSetKernelArg 0) (env.clSetKernelArg 1))
          (env.clSetKernelArg 2)) (env.clSetKernelArg 3)) ∧
      (∃ a3, ((main env).trace.filter Event.isPipelineCall).getLast? =
        some (.clSetKernelArg 3 4 a3 (env.clSetKernelArg 3))) := by
  simp only [main, loadKernel, buildAndRun, cleanup]
  rcases hl : env.stbi_load with _ | ⟨W, H⟩
  · (simp [Event.isPipelineCall, List.filter, stderrText, cerrItems, Item.isNull, errorLine, List.takeWhile, *]; try tauto)
  simp only []
  by_cases hv : output_size W H ≤ VECTOR_MAX_SIZE ∧ env.alloc_output_image = true
  case neg => rw [std_vector_ne hv]; (simp [Event.isPipelineCall, List.filter, stderrText, cerrItems, Item.isNull, errorLine, List.takeWhile, *]; try tauto)
  rw [std_vector_eq hv]
  rcases hk : env.kernel_file with _ | code
  · (simp [Event.isPipelineCall, List.filter, stderrText, cerrItems, Item.isNull, errorLine, List.takeWhile, *]; try tauto)
  simp only []
  by_cases h1 : env.clGetPlatformIDs = CL_SUCCESS
  case neg => rw [checkError_ne h1]; (simp [Event.isPipelineCall, List.filter, stderrText, cerrItems, Item.isNull, errorLine, List.takeWhile, *]; try tauto)
  rw [checkError_eq h1]
  by_cases h2 : env.clGetDeviceIDs = CL_SUCCESS
  case neg => rw [checkError_ne h2]; (simp [Event.isPipelineCall, List.filter, stderrText, cerrItems, Item.isNull, errorLine, List.takeWhile, *]; try tauto)
  rw [checkError_eq h2]
  by_cases h3 : env.clCreateContext = CL_SUCCESS
  case neg => rw [checkError_ne h3]; (simp [Event.isPipelineCall, List.filter, stderrText, cerrItems, Item.isNull, errorLine, List.takeWhile, *]; try tauto)
  rw [checkError_eq h3]
  by_cases h4 : env.clCreateCommandQueue = CL_SUCCESS
  case neg => rw [checkError_ne h4]; (simp [Event.isPipelineCall, List.filter, stderrText, cerrItems, Item.isNull, errorLine, List.takeWhile, *]; try tauto)
  rw [checkError_eq h4]
  by_cases h5 : env.clCreateBuffer_input = CL_SUCCESS
  case neg => rw [checkError_ne h5]; (simp [Event.isPipelineCall, List.filter, stderrText, cerrItems, Item.isNull, errorLine, List.takeWhile, *]; try tauto)
  rw [checkError_eq h5]
  by_cases h6 : env.clCreateBuffer_output = CL_SUCCESS
  case neg => rw [checkError_ne h6]; (simp [Event.isPipelineCall, List.filter, stderrText, cerrItems, Item.isNull, errorLine, List.takeWhile, *]; try tauto)
  rw [checkError_eq h6]
  by_cases h7 : env.clCreateProgramWithSource = CL_SUCCESS
  case neg => rw [checkError_ne h7]; (simp [Event.isPipelineCall, List.filter, stderrText, cerrItems, Item.isNull, errorLine, List.takeWhile, *]; try tauto)
  rw [checkError_eq h7]
  by_cases h8 : env.clBuildProgram = CL_SUCCESS
  case neg =>
    by_cases hf : env.buildLogFits
    · rw [buildFailure_print env h8 hf]
      (simp [Event.isPipelineCall, List.filter, stderrText, cerrItems, Item.isNull, errorLine, List.takeWhile, *]; try tauto)
    · rw [buildFailure_abort env h8 hf]; (simp [Event.isPipelineCall, List.filter, stderrText, cerrItems, Item.isNull, errorLine, List.takeWhile, *]; try tauto)
  rw [buildFailure_eq env h8]
  by_cases h9 : env.clCreateKernel = CL_SUCCESS
  case neg => rw [checkError_ne h9]; (simp [Event.isPipelineCall, List.filter, stderrText, cerrItems, Item.isNull, errorLine, List.takeWhile, *]; try tauto)
  rw [checkError_eq h9]
  by_cases hor : Int.lor (Int.lor (Int.lor (env.clSetKernelArg 0) (env.clSetKernelArg 1))
      (env.clSetKernelArg 2)) (env.clSetKernelArg 3) = CL_SUCCESS
  case neg => rw [checkError_ne hor]; (simp [Event.isPipelineCall, List.filter, stderrText, cerrItems, Item.isNull, errorLine, List.takeWhile, *]; try tauto)
  rw [checkError_eq hor]
  obtain ⟨a0, a1, a2, a3⟩ := setArg_or_eq _ _ _ _ hor
  by_cases h10 : env.clEnqueueNDRangeKernel = CL_SUCCESS
  case neg => rw [checkError_ne h10]; (simp [Event.isPipelineCall, List.filter, stderrText, cerrItems, Item.isNull, errorLine, List.takeWhile, *]; try tauto)
  rw [checkError_eq h10]
  by_cases h11 : env.clEnqueueReadBuffer = CL_SUCCESS
  case neg => rw [checkError_ne h11]; (simp [Event.isPipelineCall, List.filter, stderrText, cerrItems, Item.isNull, errorLine, List.takeWhile, *]; try tauto)
  rw [checkError_eq h11]
  (simp [Event.isPipelineCall, List.filter, stderrText, cerrItems, Item.isNull, errorLine, List.takeWhile, *]; try tauto)

/-- Claim C3, refuted as stated: (1) `clReleaseContext` returns -34 and the run
prints nothing to stderr and returns 0; (2) the build-info query returns -30 and
the only error line names `clBuildProgram` with -11; (3) the first two argument
bindings return -38 and -49, the run goes on to bind arguments 2 and 3, and the
error line carries -33, the or of the codes, which no call returned. -/
theorem status_check_counterexample :
    (Event.clReleaseContext .context (-34) ∈ (main Env.releaseFails).trace ∧
      (main Env.releaseFails).status = .returned 0 ∧
      ∀ e ∈ (main Env.releaseFails).trace, e.isCerr = false) ∧
    (Event.clGetProgramBuildInfo 1 (-30) ∈ (main Env.buildInfoFails).trace ∧
      (main Env.buildInfoFails).trace.filter Event.isCerr =
        [.cerr [.str "Build log:\n", .cstr (some ""), .endl],
         .cerr (errorLine "clBuildProgram" (-11))]) ∧
    (Event.clSetKernelArg 0 8 (.mem .inputBuffer) (-38) ∈ (main Env.argsFail).trace ∧
      Event.clSetKernelArg 1 8 (.mem .outputBuffer) (-49) ∈ (main Env.argsFail).trace ∧
      Event.clSetKernelArg 2 4 (.int 2) 0 ∈ (main Env.argsFail).trace ∧
      Event.clSetKernelArg 3 4 (.int 2) 0 ∈ (main Env.argsFail).trace ∧
      (main Env.argsFail).trace.getLast? = some (.cerr (errorLine "clSetKernelArg" (-33)))) := by
  refine ⟨by decide, by decide, by decide, by decide, by decide, by decide, ?_⟩
  have h := (setArg_failure_walk Env.argsFail 0 8 (.mem .inputBuffer) (-38) (by decide)
    (by decide)).2.1
  have hv : Int.lor (Int.lor (Int.lor (Env.argsFail.clSetKernelArg 0)
      (Env.argsFail.clSetKernelArg 1)) (Env.argsFail.clSetKernelArg 2))
      (Env.argsFail.clSetKernelArg 3) = -33 := by
    show Int.lor (Int.lor (Int.lor (-38) (-49)) 0) 0 = -33
    rw [lor_zero_right, lor_zero_right]
    decide
  rw [hv] at h
  exact h

/-- Claim C3, amended: (1) a platform or device query, a context, queue, buffer,
program or kernel creation, the build, the dispatch or the read-back that returns
a non-success status is the last pipeline call of the run; the run then ends with
`exit(1)`, and the last thing written to stderr is the label and raw status of
that call; for the build this is stated only when the vector `build_log` can be
constructed (exit) and `log_size` is not 0 (error line); (2) a non-success status
of an argument binding ends the run with `exit(1)` once all four bindings have been
attempted, the error line carrying the label `clSetKernelArg` and the bitwise or
of the four statuses; (3) the statuses of the build-info queries and of the release
calls are not examined: when every tested call passes the run writes nothing to
stderr and returns 0. -/
theorem status_checks (env : Env) :
    (∀ e ∈ (main env).trace, ∀ name s, e.checked = some (name, s) → s ≠ CL_SUCCESS →
      ((main env).trace.filter Event.isPipelineCall).getLast? = some e ∧
      ((e = .clBuildProgram s → env.buildLogFits) → (main env).status = .exited 1) ∧
      ((e = .clBuildProgram s → env.buildLogFits ∧ 0 < env.log_size) →
        stderrText (main env).trace = errorLine name s ∨
        stderrText (main env).trace =
          [.str "Build log:\n", .cstr (some env.build_log), .endl] ++ errorLine name s)) ∧
    (∀ i sz a s, Event.clSetKernelArg i sz a s ∈ (main env).trace → s ≠ CL_SUCCESS →
      (main env).status = .exited 1 ∧
      (main env).trace.getLast? = some (.cerr (errorLine "clSetKernelArg"
        (Int.lor (Int.lor (Int.lor (env.clSetKernelArg 0) (env.clSetKernelArg 1))
          (env.clSetKernelArg 2)) (env.clSetKernelArg 3)))) ∧
      stderrText (main env).trace = errorLine "clSetKernelArg"
        (Int.lor (Int.lor (Int.lor (env.clSetKernelArg 0) (env.clSetKernelArg 1))
          (env.clSetKernelArg 2)) (env.clSetKernelArg 3)) ∧
      (∃ a3, ((main env).trace.filter Event.isPipelineCall).getLast? =
        some (.clSetKernelArg 3 4 a3 (env.clSetKernelArg 3)))) ∧
    (env.succeeds →
      (main env).status = .returned 0 ∧ stderrText (main env).trace = [] ∧
      ∀ e ∈ (main env).trace, e.isCerr = false) := by
  refine ⟨checked_failure_walk env, setArg_failure_walk env, ?_⟩
  intro hs
  obtain ⟨W, H, code, -, -, -, hm⟩ := main_of_succeeds_exists env hs
  rw [hm]
  simp [successTrace, Event.isCerr, stderrText, cerrItems]

/-- Witness of the amended C3: the device query fails with -1. -/
theorem status_checks_witness :
    (main Env.noDevice).status = .exited 1 ∧
    stderrText (main Env.noDevice).trace = errorLine "clGetDeviceIDs" (-1) :=
  have h := (status_checks Env.noDevice).1 (.clGetDeviceIDs CL_DEVICE_TYPE_GPU 1 (-1))
    (by decide) "clGetDeviceIDs" (-1) rfl (by decide)
  ⟨h.2.1 (by decide), (h.2.2 (by decide)).resolve_right (by decide)⟩

/-! ### Build failure -/

set_option maxHeartbeats 4000000 in
/-- The course of a run after a failed build. -/
theorem build_failure_walk (env : Env) (s : Int) :
    Event.clBuildProgram s ∈ (main env).trace → s ≠ CL_SUCCESS →
    (∀ e ∈ (main env).trace, e.isEncode = false ∧ e.acquires ≠ some .kernel) ∧
    ((main env).status = .exited 1 ∨ (main env).status = .aborted) ∧
    (env.buildLogFits → 0 < env.log_size →
      (∃ pre, (main env).trace = pre ++
          [.clBuildProgram s,
           .clGetProgramBuildInfo 0 env.clGetProgramBuildInfo_size,
           .clGetProgramBuildInfo env.log_size env.clGetProgramBuildInfo_data,
           .cerr [.str "Build log:\n", .cstr (some env.build_log), .endl],
           .cerr (errorLine "clBuildProgram" s)] ∧
        ∀ e ∈ pre, e.isCerr = false) ∧
      stderrText (main env).trace =
        [.str "Build log:\n", .cstr (some env.build_log), .endl] ++
          errorLine "clBuildProgram" s ∧
      (main env).status = .exited 1) := by
  simp only [main, loadKernel, buildAndRun, cleanup]
  rcases hl : env.stbi_load with _ | ⟨W, H⟩
  · (intro hb hs; simp_all)
  simp only []
  by_cases hv : output_size W H ≤ VECTOR_MAX_SIZE ∧ env.alloc_output_image = true
  case neg => rw [std_vector_ne hv]; (intro hb hs; simp_all)
  rw [std_vector_eq hv]
  rcases hk : env.kernel_file with _ | code
  · (intro hb hs; simp_all)
  simp only []
  by_cases h1 : env.clGetPlatformIDs = CL_SUCCESS
  case neg => rw [checkError_ne h1]; (intro hb hs; simp_all)
  rw [checkError_eq h1]
  by_cases h2 : env.clGetDeviceIDs = CL_SUCCESS
  case neg => rw [checkError_ne h2]; (intro hb hs; simp_all)
  rw [checkError_eq h2]
  by_cases h3 : env.clCreateContext = CL_SUCCESS
  case neg => rw [checkError_ne h3]; (intro hb hs; simp_all)
  rw [checkError_eq h3]
  by_cases h4 : env.clCreateCommandQueue = CL_SUCCESS
  case neg => rw [checkError_ne h4]; (intro hb hs; simp_all)
  rw [checkError_eq h4]
  by_cases h5 : env.clCreateBuffer_input = CL_SUCCESS
  case neg => rw [checkError_ne h5]; (intro hb hs; simp_all)
  rw [checkError_eq h5]
  by_cases h6 : env.clCreateBuffer_output = CL_SUCCESS
  case neg => rw [checkError_ne h6]; (intro hb hs; simp_all)
  rw [checkError_eq h6]
  by_cases h7 : env.clCreateProgramWithSource = CL_SUCCESS
  case neg => rw [checkError_ne h7]; (intro hb hs; simp_all)
  rw [checkError_eq h7]
  by_cases h8 : env.clBuildProgram = CL_SUCCESS
  case neg =>
    by_cases hf : env.buildLogFits
    · rw [buildFailure_print env h8 hf]
      intro hb hs
      have hs8 : s = env.clBuildProgram := by simpa using hb
      subst hs8
      refine ⟨by simp [Event.isEncode, Event.acquires], Or.inl (by simp), ?_⟩
      intro _ hpos
      have h0 : env.log_size ≠ 0 := by omega
      refine ⟨⟨[.stbi_load "input.jpg" 3 (some (W, H)), .ifstream_open "kernel.cl" true,
                .clGetPlatformIDs 1 env.clGetPlatformIDs,
                .clGetDeviceIDs CL_DEVICE_TYPE_GPU 1 env.clGetDeviceIDs,
                .clCreateContext env.clCreateContext,
                .clCreateCommandQueue env.clCreateCommandQueue,
                .clCreateBuffer .inputBuffer (CL_MEM_READ_ONLY ||| CL_MEM_COPY_HOST_PTR)
                  (input_size W H) (some .input_image) env.clCreateBuffer_input,
                .clCreateBuffer .outputBuffer CL_MEM_WRITE_ONLY (output_size W H) none
                  env.clCreateBuffer_output,
                .clCreateProgramWithSource code env.clCreateProgramWithSource], ?_, ?_⟩, ?_, ?_⟩
      · simp [h0]
      · simp [Event.isCerr]
      · simp [stderrText, cerrItems, Item.isNull, errorLine, List.takeWhile, h0]
      · simp
    · rw [buildFailure_abort env h8 hf]; (intro hb hs; have hs8 : s = env.clBuildProgram := (by simpa using hb); subst hs8; exact ⟨by simp [Event.isEncode, Event.acquires], Or.inr (by simp), fun hfit => absurd hfit hf⟩)
  rw [buildFailure_eq env h8]
  by_cases h9 : env.clCreateKernel = CL_SUCCESS
  case neg => rw [checkError_ne h9]; (intro hb hs; simp_all)
  rw [checkError_eq h9]
  by_cases hor : Int.lor (Int.lor (Int.lor (env.clSetKernelArg 0) (env.clSetKernelArg 1))
      (env.clSetKernelArg 2)) (env.clSetKernelArg 3) = CL_SUCCESS
  case neg => rw [checkError_ne hor]; (intro hb hs; simp_all)
  rw [checkError_eq hor]
  obtain ⟨a0, a1, a2, a3⟩ := setArg_or_eq _ _ _ _ hor
  by_cases h10 : env.clEnqueueNDRangeKernel = CL_SUCCESS
  case neg => rw [checkError_ne h10]; (intro hb hs; simp_all)
  rw [checkError_eq h10]
  by_cases h11 : env.clEnqueueReadBuffer = CL_SUCCESS
  case neg => rw [checkError_ne h11]; (intro hb hs; simp_all)
  rw [checkError_eq h11]
  (intro hb hs; simp_all)

/-- Claim C6, refuted as stated: the build fails with -11 and the runtime hands back
an empty log; the run prints the header followed by an empty log text. -/
theorem build_log_counterexample :
    Event.clBuildProgram (-11) ∈ (main Env.emptyLog).trace ∧
    (main Env.emptyLog).status = .exited 1 ∧
    stderrText (main Env.emptyLog).trace =
      [.str "Build log:\n", .cstr (some ""), .endl] ++ errorLine "clBuildProgram" (-11) := by
  decide

/-- Claim C6, amended: in every run in which `clBuildProgram` returns a non-success
status, no kernel is created and the encoder is never called, and the run ends with
`exit(1)` or is aborted by the constructor of `build_log`.  When that vector can be
constructed and `log_size` is not 0, the build call is followed by exactly the two
build-info queries (size, then data), the line "Build log:" with the log text
handed back by the runtime (empty or not) and the error line of `clBuildProgram`;
nothing was written to stderr before, and the run ends with `exit(1)`. -/
theorem build_failure_prints_log (env : Env) (s : Int)
    (hb : Event.clBuildProgram s ∈ (main env).trace) (hs : s ≠ CL_SUCCESS) :
    (∀ e ∈ (main env).trace, e.isEncode = false ∧ e.acquires ≠ some .kernel) ∧
    ((main env).status = .exited 1 ∨ (main env).status = .aborted) ∧
    (env.buildLogFits → 0 < env.log_size →
      (∃ pre, (main env).trace = pre ++
          [.clBuildProgram s,
           .clGetProgramBuildInfo 0 env.clGetProgramBuildInfo_size,
           .clGetProgramBuildInfo env.log_size env.clGetProgramBuildInfo_data,
           .cerr [.str "Build log:\n", .cstr (some env.build_log), .endl],
           .cerr (errorLine "clBuildProgram" s)] ∧
        ∀ e ∈ pre, e.isCerr = false) ∧
      stderrText (main env).trace =
        [.str "Build log:\n", .cstr (some env.build_log), .endl] ++
          errorLine "clBuildProgram" s ∧
      (main env).status = .exited 1) :=
  build_failure_walk env s hb hs

/-- Witness of the amended C6: a build that fails with -11 and a one-line log. -/
theorem build_failure_prints_log_witness :
    Event.clBuildProgram (-11) ∈ (main Env.syntaxError).trace ∧
    stderrText (main Env.syntaxError).trace =
      [.str "Build log:\n", .cstr (some "error: expected \x27;\x27\n"), .endl] ++
        errorLine "clBuildProgram" (-11) ∧
    (main Env.syntaxError).status = .exited 1 :=
  ⟨by decide,
   ((build_failure_prints_log Env.syntaxError (-11) (by decide) (by decide)).2.2
      (by decide) (by decide)).2⟩

end Grayscale
